import Mathlib

/-
Verification development for the Playfunia back-office core
(src/db/queries.py and src/db/database.py): party-booking conflict
detection, order/ledger totals, payment/refund linkage, enum
normalization and the error model.

Modelling conventions:
  - timestamps are integers (only their ordering matters to the code);
  - a datetime string argument is modelled by `DTStr`: the empty string,
    a non-empty string that `datetime.fromisoformat` rejects, or a
    parseable one carrying its value;
  - money is modelled by rationals; Python `round(x, 2)` becomes
    `pyRound2` (round half to even, as Python does);
  - the Supabase record store is modelled by the components of `State`;
    `_make_request` either returns its result or raises, controlled by
    `Env.storeFault` (a raised `requests` exception carrying a message);
  - each `@function_tool` becomes a function `Env → State → args →
    String × State` returning the message the tool returns and the
    store state afterwards.
-/

set_option maxHeartbeats 1000000

namespace Playfunia

/-- A datetime string argument: empty, unparseable, or parseable with value. -/
inductive DTStr where
  | empty : DTStr
  | invalid : DTStr
  | valid : Int → DTStr
deriving DecidableEq

/-- `datetime.fromisoformat` on a `DTStr`: `none` means `ValueError`. -/
def parseDT : DTStr → Option Int
  | DTStr.valid t => some t
  | _ => none

/-- ASCII whitespace stripped by Python `str.strip()`. -/
def isStripChar (c : Char) : Bool :=
  c == ' ' || c == '\t' || c == '\n' || c == '\r' || c == '\x0b' || c == '\x0c'

/-- Python `str.strip()` (whitespace from both ends). -/
def pyStrip (s : String) : String :=
  String.mk (((s.data.dropWhile isStripChar).reverse.dropWhile isStripChar).reverse)

/-- Python `str.lower()` (ASCII case folding, all that these inputs need). -/
def pyLower (s : String) : String :=
  String.mk (s.data.map Char.toLower)

/-- Python `s.strip() or None`. -/
def strOrNone (t : String) : Option String :=
  if pyStrip t = "" then none else some (pyStrip t)

structure Customer where
  customer_id : Int
deriving DecidableEq

structure Booking where
  booking_id : Int
  package_id : Int
  resource_id : Int
  customer_id : Int
  scheduled_start : Int
  scheduled_end : Int
  status : String
  additional_kids : Int
  additional_guests : Int
  special_requests : Option String
deriving DecidableEq

structure Reschedule where
  booking_id : Int
  old_start : Int
  old_end : Int
  new_start : Int
  new_end : Int
  reason : Option String
deriving DecidableEq

structure Order where
  order_id : Int
  customer_id : Int
  location_id : Option Int
  order_type : String
  status : String
  subtotal_usd : ℚ
  discount_usd : ℚ
  tax_usd : ℚ
  total_usd : ℚ
  notes : Option String
  updated_at : Int
deriving DecidableEq

structure OrderItem where
  order_id : Int
  item_type : String
  product_id : Option Int
  ticket_type_id : Option Int
  booking_id : Option Int
  name_override : Option String
  quantity : Int
  unit_price_usd : ℚ
  line_total_usd : ℚ
deriving DecidableEq

structure Payment where
  payment_id : Int
  order_id : Int
  provider : String
  provider_payment_id : Option String
  status : String
  amount_usd : ℚ
deriving DecidableEq

structure Refund where
  refund_id : Int
  payment_id : Option Int
  order_id : Int
  status : String
  reason : Option String
  amount_usd : ℚ
deriving DecidableEq

/-- The record store contents, plus the id the store will assign next. -/
structure State where
  customers : List Customer
  bookings : List Booking
  reschedules : List Reschedule
  orders : List Order
  order_items : List OrderItem
  payments : List Payment
  refunds : List Refund
  next_id : Int
deriving DecidableEq

/-- Call environment: whether store requests fail (the message the raised
`requests` exception carries), and the clock used for `datetime.now()`. -/
structure Env where
  storeFault : Option String
  now : Int

/-- Model of `SupabaseClient._make_request`: delivers the store result,
or re-raises the transport/authorization failure as an exception. -/
def _make_request {α : Type} (env : Env) (result : α) : Except String α :=
  match env.storeFault with
  | some e => Except.error e
  | none => Except.ok result

/-- `_normalize_choice` from queries.py: case-insensitive first match. -/
def _normalize_choice (value : String) (choices : List String) : Option String :=
  choices.find? (fun option => pyLower (pyStrip value) == pyLower option)

def ORDER_STATUSES : List String :=
  ["Pending", "Paid", "Cancelled", "Refunded", "PartiallyRefunded", "Fulfilled"]

def PAYMENT_STATUSES : List String :=
  ["Pending", "Authorized", "Captured", "Failed", "Cancelled"]

def ITEM_TYPES : List String := ["Product", "Ticket", "Party"]

def PARTY_STATUSES : List String :=
  ["Pending", "Confirmed", "Cancelled", "Completed", "Refunded", "Rescheduled"]

/-- Python `", ".join(l)`. -/
def joinChoices (l : List String) : String := String.intercalate ", " l

/-- The `status=in.(Pending,Confirmed)` filter used by the conflict queries. -/
def isActiveStatus (st : String) : Bool := st == "Pending" || st == "Confirmed"

/-- An optional integer argument was supplied and is negative
(the `is not None` plus `< 0` test of update_party_booking). -/
def negIntOpt (x : Option Int) : Bool :=
  match x with
  | some k => decide (k < 0)
  | none => false

/-- The conflict query of create/update_party_booking: bookings on the
resource, excluding `excl` if given, active, whose window intersects
`[start_dt, end_dt)` under the half-open rule. -/
def bookingConflicts (s : State) (resource_id : Int) (excl : Option Int)
    (start_dt end_dt : Int) : List Booking :=
  s.bookings.filter (fun b =>
    b.resource_id == resource_id
    && (match excl with
        | some bid => b.booking_id != bid
        | none => true)
    && isActiveStatus b.status
    && decide (b.scheduled_start < end_dt)
    && decide (b.scheduled_end > start_dt))

/-- `create_party_booking` from queries.py. -/
def create_party_booking (env : Env) (s : State)
    (customer_id package_id resource_id : Int)
    (scheduled_start scheduled_end : DTStr)
    (additional_kids additional_guests : Int)
    (special_requests : String) (status : String) : String × State :=
  if additional_kids < 0 ∨ additional_guests < 0 then
    ("additional_kids and additional_guests must be zero or greater.", s)
  else
    match _normalize_choice status PARTY_STATUSES with
    | none => ("Status must be one of: " ++ joinChoices PARTY_STATUSES, s)
    | some normalized_status =>
      match parseDT scheduled_start, parseDT scheduled_end with
      | none, _ => ("Invalid datetime format. Use ISO format, e.g., 2025-11-03T12:00.", s)
      | some _, none => ("Invalid datetime format. Use ISO format, e.g., 2025-11-03T12:00.", s)
      | some start_dt, some end_dt =>
        if end_dt ≤ start_dt then ("scheduled_end must be after scheduled_start.", s)
        else
          match _make_request env (s.customers.find? (fun c => c.customer_id == customer_id)) with
          | Except.error e => ("Error creating party booking: " ++ e, s)
          | Except.ok none => ("Customer not found. Please create a customer profile first.", s)
          | Except.ok (some _) =>
            match _make_request env (bookingConflicts s resource_id none start_dt end_dt) with
            | Except.error e => ("Error creating party booking: " ++ e, s)
            | Except.ok conflicts =>
              if conflicts.isEmpty then
                match _make_request env () with
                | Except.error e => ("Error creating party booking: " ++ e, s)
                | Except.ok _ =>
                  let newBooking : Booking :=
                    { booking_id := s.next_id
                      package_id := package_id
                      resource_id := resource_id
                      customer_id := customer_id
                      scheduled_start := start_dt
                      scheduled_end := end_dt
                      status := normalized_status
                      additional_kids := additional_kids
                      additional_guests := additional_guests
                      special_requests := strOrNone special_requests }
                  let s1 : State :=
                    { s with bookings := s.bookings ++ [newBooking], next_id := s.next_id + 1 }
                  ("Created party booking #" ++ toString newBooking.booking_id
                     ++ " from " ++ toString start_dt ++ " to " ++ toString end_dt
                     ++ " with status " ++ normalized_status ++ ".", s1)
              else
                ("That room is already booked during the requested time.", s)

/-- `update_party_booking` from queries.py. -/
def update_party_booking (env : Env) (s : State) (booking_id : Int)
    (status : String) (scheduled_start scheduled_end : DTStr)
    (additional_kids additional_guests : Option Int)
    (special_requests : Option String) (reschedule_reason : String) : String × State :=
  match _make_request env (s.bookings.find? (fun b => b.booking_id == booking_id)) with
  | Except.error e => ("Error updating party booking: " ++ e, s)
  | Except.ok none => ("Booking not found.", s)
  | Except.ok (some booking) =>
    let resource_id := booking.resource_id
    let current_start := booking.scheduled_start
    let current_end := booking.scheduled_end
    let current_status := booking.status
    match (if status = "" then some (none : Option String)
           else match _normalize_choice status PARTY_STATUSES with
                | none => none
                | some ns => some (some ns)) with
    | none => ("Status must be one of: " ++ joinChoices PARTY_STATUSES, s)
    | some status_upd =>
      let normalized_status := status_upd.getD current_status
      match scheduled_start with
      | DTStr.invalid => ("Invalid scheduled_start datetime format.", s)
      | _ =>
        match scheduled_end with
        | DTStr.invalid => ("Invalid scheduled_end datetime format.", s)
        | _ =>
          let new_start_dt := parseDT scheduled_start
          let new_end_dt := parseDT scheduled_end
          let final_start := new_start_dt.getD current_start
          let final_end := new_end_dt.getD current_end
          if final_end ≤ final_start then ("scheduled_end must be after scheduled_start.", s)
          else
            let schedule_changed : Bool := new_start_dt.isSome || new_end_dt.isSome
            match (if schedule_changed then
                     _make_request env (bookingConflicts s resource_id (some booking_id) final_start final_end)
                   else Except.ok []) with
            | Except.error e => ("Error updating party booking: " ++ e, s)
            | Except.ok conflicts =>
              if conflicts.isEmpty then
                if negIntOpt additional_kids then
                  ("additional_kids must be zero or greater.", s)
                else if negIntOpt additional_guests then
                  ("additional_guests must be zero or greater.", s)
                else
                  let hasUpdates : Bool := status_upd.isSome || schedule_changed
                      || additional_kids.isSome || additional_guests.isSome
                      || special_requests.isSome
                  if hasUpdates then
                    match _make_request env () with
                    | Except.error e => ("Error updating party booking: " ++ e, s)
                    | Except.ok _ =>
                      let s1 : State :=
                        { s with bookings := s.bookings.map (fun b =>
                            if b.booking_id == booking_id then
                              { b with
                                status := status_upd.getD b.status
                                scheduled_start := if schedule_changed then final_start else b.scheduled_start
                                scheduled_end := if schedule_changed then final_end else b.scheduled_end
                                additional_kids := additional_kids.getD b.additional_kids
                                additional_guests := additional_guests.getD b.additional_guests
                                special_requests := (special_requests.map strOrNone).getD b.special_requests }
                            else b) }
                      let response := "Updated party booking #" ++ toString booking_id
                          ++ ". Current status: " ++ normalized_status ++ "."
                      let response := if schedule_changed then
                          response ++ " New schedule: " ++ toString final_start
                            ++ " to " ++ toString final_end ++ "."
                        else response
                      if schedule_changed ∧ (final_start ≠ current_start ∨ final_end ≠ current_end) then
                        match _make_request env () with
                        | Except.error e => ("Error updating party booking: " ++ e, s1)
                        | Except.ok _ =>
                          let s2 : State :=
                            { s1 with reschedules := s1.reschedules ++ [{
                                booking_id := booking_id
                                old_start := current_start
                                old_end := current_end
                                new_start := final_start
                                new_end := final_end
                                reason := strOrNone reschedule_reason }] }
                          (response, s2)
                      else (response, s1)
                  else ("No updates were provided.", s)
              else ("That room is already booked during the requested time.", s)

/-- The integer Python `round(x * 100)` picks: round half to even. -/
def pyRound2Int (x : ℚ) : Int :=
  let f : Int := ⌊x * 100⌋
  let frac : ℚ := x * 100 - f
  if frac < 1/2 then f
  else if 1/2 < frac then f + 1
  else if f % 2 = 0 then f else f + 1

/-- Python `round(x, 2)`. -/
def pyRound2 (x : ℚ) : ℚ := (pyRound2Int x : ℚ) / 100

/-- The `order_type_map` lookup of create_order_with_item. -/
def order_type_map (t : String) : String :=
  if t = "Product" then "Retail" else if t = "Ticket" then "Admission" else "Party"

/-- `add_order_item` from queries.py. -/
def add_order_item (env : Env) (s : State) (order_id : Int) (item_type : String)
    (reference_id : Int) (quantity : Int) (unit_price_usd : ℚ)
    (name_override : String) : String × State :=
  match _normalize_choice item_type ITEM_TYPES with
  | none => ("Item type must be one of: " ++ joinChoices ITEM_TYPES, s)
  | some normalized_type =>
    if quantity ≤ 0 then ("Quantity must be greater than zero.", s)
    else if unit_price_usd < 0 then ("Unit price must be zero or greater.", s)
    else
      match _make_request env (s.orders.find? (fun o => o.order_id == order_id)) with
      | Except.error e => ("Error adding order item: " ++ e, s)
      | Except.ok none => ("Order not found.", s)
      | Except.ok (some order) =>
        let subtotal := order.subtotal_usd
        let discount := order.discount_usd
        let tax := order.tax_usd
        let line_total := pyRound2 ((quantity : ℚ) * unit_price_usd)
        let item : OrderItem :=
          { order_id := order_id
            item_type := normalized_type
            product_id := if normalized_type = "Product" then some reference_id else none
            ticket_type_id := if normalized_type = "Ticket" then some reference_id else none
            booking_id := if normalized_type = "Party" then some reference_id else none
            name_override := strOrNone name_override
            quantity := quantity
            unit_price_usd := unit_price_usd
            line_total_usd := line_total }
        match _make_request env () with
        | Except.error e => ("Error adding order item: " ++ e, s)
        | Except.ok _ =>
          let s1 : State := { s with order_items := s.order_items ++ [item] }
          let new_subtotal := subtotal + line_total
          let new_total := new_subtotal - discount + tax
          match _make_request env () with
          | Except.error e => ("Error adding order item: " ++ e, s1)
          | Except.ok _ =>
            let s2 : State :=
              { s1 with orders := s1.orders.map (fun o =>
                  if o.order_id == order_id then
                    { o with subtotal_usd := new_subtotal, total_usd := new_total,
                             updated_at := env.now }
                  else o) }
            ("Added " ++ toString quantity ++ " x " ++ normalized_type
               ++ " item to order " ++ toString order_id ++ "; new total $"
               ++ toString new_total ++ ".", s2)

/-- `create_order_with_item` from queries.py. -/
def create_order_with_item (env : Env) (s : State) (customer_id : Int)
    (item_type : String) (reference_id : Int) (quantity : Int)
    (unit_price_usd : ℚ) (location_id : Option Int) (note : String)
    (name_override : String) : String × State :=
  match _normalize_choice item_type ITEM_TYPES with
  | none => ("Item type must be one of: " ++ joinChoices ITEM_TYPES, s)
  | some normalized_type =>
    if quantity ≤ 0 then ("Quantity must be greater than zero.", s)
    else if unit_price_usd < 0 then ("Unit price must be zero or greater.", s)
    else
      let order_type := order_type_map normalized_type
      let line_total := pyRound2 ((quantity : ℚ) * unit_price_usd)
      match _make_request env (s.customers.find? (fun c => c.customer_id == customer_id)) with
      | Except.error e => ("Error creating order: " ++ e, s)
      | Except.ok none =>
        ("Customer not found. Please create a customer profile before creating an order.", s)
      | Except.ok (some _) =>
        match _make_request env () with
        | Except.error e => ("Error creating order: " ++ e, s)
        | Except.ok _ =>
          let order : Order :=
            { order_id := s.next_id
              customer_id := customer_id
              location_id := location_id
              order_type := order_type
              status := "Pending"
              subtotal_usd := line_total
              discount_usd := 0
              tax_usd := 0
              total_usd := line_total
              notes := strOrNone note
              updated_at := env.now }
          let s1 : State := { s with orders := s.orders ++ [order], next_id := s.next_id + 1 }
          match _make_request env () with
          | Except.error e => ("Error creating order: " ++ e, s1)
          | Except.ok _ =>
            let item : OrderItem :=
              { order_id := order.order_id
                item_type := normalized_type
                product_id := if normalized_type = "Product" then some reference_id else none
                ticket_type_id := if normalized_type = "Ticket" then some reference_id else none
                booking_id := if normalized_type = "Party" then some reference_id else none
                name_override := strOrNone name_override
                quantity := quantity
                unit_price_usd := unit_price_usd
                line_total_usd := line_total }
            let s2 : State := { s1 with order_items := s1.order_items ++ [item] }
            ("Created order " ++ toString order.order_id ++ " (" ++ order_type
               ++ ") totaling $" ++ toString line_total ++ ".", s2)

/-- `record_payment` from queries.py. -/
def record_payment (env : Env) (s : State) (order_id : Int) (provider : String)
    (amount_usd : ℚ) (provider_payment_id : String)
    (payment_status : String) : String × State :=
  if amount_usd ≤ 0 then ("Amount must be greater than zero.", s)
  else
    match _normalize_choice payment_status PAYMENT_STATUSES with
    | none => ("Payment status must be one of: " ++ joinChoices PAYMENT_STATUSES, s)
    | some normalized_status =>
      match _make_request env (s.orders.find? (fun o => o.order_id == order_id)) with
      | Except.error e => ("Error recording payment: " ++ e, s)
      | Except.ok none => ("Order not found.", s)
      | Except.ok (some _) =>
        match _make_request env () with
        | Except.error e => ("Error recording payment: " ++ e, s)
        | Except.ok _ =>
          let payment : Payment :=
            { payment_id := s.next_id
              order_id := order_id
              provider := if pyStrip provider = "" then "Manual" else pyStrip provider
              provider_payment_id := strOrNone provider_payment_id
              status := normalized_status
              amount_usd := amount_usd }
          let s1 : State := { s with payments := s.payments ++ [payment], next_id := s.next_id + 1 }
          ("Recorded payment " ++ toString payment.payment_id ++ " (" ++ normalized_status
             ++ ") for order " ++ toString order_id ++ " in the amount of $"
             ++ toString amount_usd ++ ".", s1)

/-- `create_refund` from queries.py. -/
def create_refund (env : Env) (s : State) (order_id : Int) (amount_usd : ℚ)
    (reason : String) (payment_id : Option Int) : String × State :=
  if amount_usd ≤ 0 then ("Refund amount must be greater than zero.", s)
  else
    match _make_request env (s.orders.find? (fun o => o.order_id == order_id)) with
    | Except.error e => ("Error creating refund: " ++ e, s)
    | Except.ok none => ("Order not found.", s)
    | Except.ok (some _) =>
      let proceed : String × State :=
        match _make_request env () with
        | Except.error e => ("Error creating refund: " ++ e, s)
        | Except.ok _ =>
          let refund : Refund :=
            { refund_id := s.next_id
              payment_id := payment_id
              order_id := order_id
              status := "Pending"
              reason := strOrNone reason
              amount_usd := amount_usd }
          let s1 : State := { s with refunds := s.refunds ++ [refund], next_id := s.next_id + 1 }
          ("Created refund " ++ toString refund.refund_id ++ " for order "
             ++ toString order_id ++ " in the amount of $" ++ toString amount_usd ++ ".", s1)
      match payment_id with
      | some pid =>
        match _make_request env (s.payments.filter
            (fun p => p.payment_id == pid && p.order_id == order_id)) with
        | Except.error e => ("Error creating refund: " ++ e, s)
        | Except.ok payment =>
          if payment.isEmpty then ("Payment not found for this order.", s)
          else proceed
      | none => proceed

/-! ## Invariants, reachability and sample data -/

/-- Half-open interval overlap, the rule of the spec glossary. -/
def overlapHalfOpen (s1 e1 s2 e2 : Int) : Prop := s1 < e2 ∧ s2 < e1

/-- No two distinct active (Pending/Confirmed) bookings on the same resource
have overlapping windows. -/
def NoOverlapInv (s : State) : Prop :=
  ∀ b1 ∈ s.bookings, ∀ b2 ∈ s.bookings,
    b1.booking_id ≠ b2.booking_id → b1.resource_id = b2.resource_id →
    isActiveStatus b1.status = true → isActiveStatus b2.status = true →
    ¬ overlapHalfOpen b1.scheduled_start b1.scheduled_end b2.scheduled_start b2.scheduled_end

/-- Store id discipline for bookings: ids are below the id counter and
pairwise distinct. -/
def BookingIdsWF (s : State) : Prop :=
  (∀ b ∈ s.bookings, b.booking_id < s.next_id)
  ∧ s.bookings.Pairwise (fun a b => a.booking_id ≠ b.booking_id)

/-- A store holding only customer rows, before any booking operation ran. -/
def initState (customers : List Customer) : State :=
  { customers := customers, bookings := [], reschedules := [], orders := [],
    order_items := [], payments := [], refunds := [], next_id := 1 }

/-- States reachable from a customers-only store by any sequence of
create_party_booking and update_party_booking operations. -/
inductive ReachableB (env : Env) : State → Prop where
  | init (customers : List Customer) : ReachableB env (initState customers)
  | create (s : State) (cid pid rid : Int) (ss se : DTStr) (ak ag : Int)
      (sr st : String) : ReachableB env s →
      ReachableB env (create_party_booking env s cid pid rid ss se ak ag sr st).2
  | update (s : State) (bid : Int) (st : String) (ss se : DTStr)
      (ak ag : Option Int) (sr : Option String) (rr : String) : ReachableB env s →
      ReachableB env (update_party_booking env s bid st ss se ak ag sr rr).2

/-- A healthy store client and a fixed clock. -/
def envOk : Env := { storeFault := none, now := 0 }

def sampleState : State :=
  { customers := [{ customer_id := 1 }], bookings := [], reschedules := [], orders := [],
    order_items := [], payments := [], refunds := [], next_id := 1 }

/-! ## Helper lemmas -/

theorem pairwise_key_unique {α κ : Type} (key : α → κ) {l : List α}
    (hp : l.Pairwise (fun a b => key a ≠ key b)) {a b : α}
    (ha : a ∈ l) (hb : b ∈ l) (h : key a = key b) : a = b := by
  induction l with
  | nil => cases ha
  | cons x xs ih =>
    rcases List.pairwise_cons.mp hp with ⟨hx, hxs⟩
    rcases List.mem_cons.mp ha with ha1 | ha2 <;> rcases List.mem_cons.mp hb with hb1 | hb2
    · rw [ha1, hb1]
    · subst ha1; exact absurd h (hx _ hb2)
    · subst hb1; exact absurd h.symm (hx _ ha2)
    · exact ih hxs ha2 hb2

/-! ## Claims -/

/-- C8: status normalization is idempotent on the canonical members of
ORDER_STATUSES, PAYMENT_STATUSES, ITEM_TYPES and PARTY_STATUSES; any string
matching a member case-insensitively normalizes to that member; and a string
matching no member makes the operation report the full list of accepted
values. -/
theorem normalize_choice_canonical :
    ((∀ st ∈ ORDER_STATUSES, _normalize_choice st ORDER_STATUSES = some st)
      ∧ (∀ st ∈ PAYMENT_STATUSES, _normalize_choice st PAYMENT_STATUSES = some st)
      ∧ (∀ st ∈ ITEM_TYPES, _normalize_choice st ITEM_TYPES = some st)
      ∧ (∀ st ∈ PARTY_STATUSES, _normalize_choice st PARTY_STATUSES = some st))
    ∧ (∀ (value : String) (choices : List String),
        (∃ c ∈ choices, pyLower (pyStrip value) = pyLower c) →
        ∃ c ∈ choices, _normalize_choice value choices = some c
          ∧ pyLower (pyStrip value) = pyLower c)
    ∧ (∀ env s cid pid rid ss se (ak ag : Int) sr st, 0 ≤ ak → 0 ≤ ag →
        _normalize_choice st PARTY_STATUSES = none →
        (create_party_booking env s cid pid rid ss se ak ag sr st).1
          = "Status must be one of: " ++ joinChoices PARTY_STATUSES) := by
  refine ⟨⟨by decide, by decide, by decide, by decide⟩, ?_, ?_⟩
  · intro value choices hex
    cases hfind : choices.find? (fun option => pyLower (pyStrip value) == pyLower option) with
    | none =>
      exfalso
      rcases hex with ⟨c, hc, heq⟩
      have := List.find?_eq_none.mp hfind c hc
      simp only [beq_iff_eq] at this
      exact this heq
    | some c =>
      refine ⟨c, List.mem_of_find?_eq_some hfind, hfind, ?_⟩
      have := List.find?_some hfind
      simpa only [beq_iff_eq] using this
  · intro env s cid pid rid ss se ak ag sr st hak hag hnone
    unfold create_party_booking
    rw [if_neg (by omega), hnone]

/-- Witness for C8 at concrete inputs. -/
theorem normalize_choice_canonical_witness :
    _normalize_choice "Paid" ORDER_STATUSES = some "Paid"
    ∧ (∃ c ∈ PARTY_STATUSES, _normalize_choice " confirmed " PARTY_STATUSES = some c
        ∧ pyLower (pyStrip " confirmed ") = pyLower c)
    ∧ (create_party_booking envOk sampleState 1 1 1 (DTStr.valid 0) (DTStr.valid 1)
        0 0 "" "shipped").1 = "Status must be one of: " ++ joinChoices PARTY_STATUSES :=
  ⟨normalize_choice_canonical.1.1 "Paid" (by decide),
   normalize_choice_canonical.2.1 " confirmed " PARTY_STATUSES
     ⟨"Confirmed", by decide, by decide⟩,
   normalize_choice_canonical.2.2 envOk sampleState 1 1 1 (DTStr.valid 0) (DTStr.valid 1)
     0 0 "" "shipped" (by decide) (by decide) (by decide)⟩

def sampleOrder (oid : Int) : Order :=
  { order_id := oid, customer_id := 1, location_id := none, order_type := "Retail",
    status := "Pending", subtotal_usd := 10, discount_usd := 0, tax_usd := 0,
    total_usd := 10, notes := none, updated_at := 0 }

def samplePayment (pid oid : Int) : Payment :=
  { payment_id := pid, order_id := oid, provider := "Manual", provider_payment_id := none,
    status := "Captured", amount_usd := 10 }

def refundState : State :=
  { customers := [{ customer_id := 1 }], bookings := [], reschedules := [],
    orders := [sampleOrder 1, sampleOrder 2], order_items := [],
    payments := [samplePayment 7 2], refunds := [], next_id := 10 }

/-- C5: create_refund with a payment_id that does not resolve to a Payment of
the given order returns the specific message and leaves the store unchanged;
when the payment does belong to the order, a Pending Refund row is inserted. -/
theorem create_refund_payment_linkage (env : Env) (s : State) (order_id : Int)
    (amount_usd : ℚ) (reason : String) (pid : Int)
    (henv : env.storeFault = none) (hamt : 0 < amount_usd)
    (horder : (s.orders.find? (fun o => o.order_id == order_id)).isSome) :
    ((s.payments.filter (fun p => p.payment_id == pid && p.order_id == order_id)) = [] →
      create_refund env s order_id amount_usd reason (some pid)
        = ("Payment not found for this order.", s))
    ∧ ((s.payments.filter (fun p => p.payment_id == pid && p.order_id == order_id)) ≠ [] →
      (create_refund env s order_id amount_usd reason (some pid)).2.refunds
        = s.refunds ++ [{ refund_id := s.next_id
                          payment_id := some pid
                          order_id := order_id
                          status := "Pending"
                          reason := strOrNone reason
                          amount_usd := amount_usd }]) := by
  rcases Option.isSome_iff_exists.mp horder with ⟨o, ho⟩
  constructor
  · intro hfil
    unfold create_refund
    rw [if_neg (not_le.mpr hamt)]
    simp only [_make_request, henv, ho, hfil]
    rfl
  · intro hfil
    unfold create_refund
    rw [if_neg (not_le.mpr hamt)]
    simp only [_make_request, henv, ho]
    rw [if_neg (by simpa [List.isEmpty_iff] using hfil)]

/-- Witness for C5: payment 7 belongs to order 2, so refunding order 1
against it is rejected with the specific message and no state change. -/
theorem create_refund_payment_linkage_witness :
    create_refund envOk refundState 1 5 "" (some 7)
      = ("Payment not found for this order.", refundState) :=
  (create_refund_payment_linkage envOk refundState 1 5 "" 7
    (by decide) (by norm_num) (by decide)).1 (by decide)

/-- C9: a successful record_payment inserts exactly one Payment row, with
provider defaulting to Manual when the supplied provider is blank, does not
mutate any Order row (or any other table), and the default argument value
Captured normalizes to Captured. -/
theorem record_payment_frame (env : Env) (s : State) (order_id : Int)
    (provider : String) (amount_usd : ℚ) (provider_payment_id : String)
    (payment_status ns : String)
    (henv : env.storeFault = none) (hamt : 0 < amount_usd)
    (hst : _normalize_choice payment_status PAYMENT_STATUSES = some ns)
    (horder : (s.orders.find? (fun o => o.order_id == order_id)).isSome) :
    (record_payment env s order_id provider amount_usd provider_payment_id
        payment_status).2.payments
      = s.payments ++ [{ payment_id := s.next_id
                         order_id := order_id
                         provider := if pyStrip provider = "" then "Manual" else pyStrip provider
                         provider_payment_id := strOrNone provider_payment_id
                         status := ns
                         amount_usd := amount_usd }]
    ∧ (record_payment env s order_id provider amount_usd provider_payment_id
        payment_status).2.orders = s.orders
    ∧ (record_payment env s order_id provider amount_usd provider_payment_id
        payment_status).2.order_items = s.order_items
    ∧ (record_payment env s order_id provider amount_usd provider_payment_id
        payment_status).2.refunds = s.refunds
    ∧ _normalize_choice "Captured" PAYMENT_STATUSES = some "Captured" := by
  rcases Option.isSome_iff_exists.mp horder with ⟨o, ho⟩
  unfold record_payment
  rw [if_neg (not_le.mpr hamt)]
  simp only [_make_request, henv, ho, hst]
  exact ⟨by trivial, by trivial, by trivial, by trivial, by decide⟩

/-- Witness for C9: blank provider is recorded as Manual and the two order
rows are untouched. -/
theorem record_payment_frame_witness :
    (record_payment envOk refundState 1 " " 25 "" "Captured").2.payments
      = refundState.payments ++ [{ payment_id := 10
                                   order_id := 1
                                   provider := "Manual"
                                   provider_payment_id := none
                                   status := "Captured"
                                   amount_usd := 25 }]
    ∧ (record_payment envOk refundState 1 " " 25 "" "Captured").2.orders
      = refundState.orders := by
  have h := record_payment_frame envOk refundState 1 " " 25 "" "Captured" "Captured"
    (by decide) (by norm_num) (by decide) (by decide)
  exact ⟨by rw [h.1]; decide, h.2.1⟩

def sampleBooking : Booking :=
  { booking_id := 1, package_id := 1, resource_id := 5, customer_id := 1,
    scheduled_start := 10, scheduled_end := 30, status := "Pending",
    additional_kids := 0, additional_guests := 0, special_requests := none }

def bookingState : State :=
  { customers := [{ customer_id := 1 }], bookings := [sampleBooking], reschedules := [],
    orders := [], order_items := [], payments := [], refunds := [], next_id := 2 }

/-- C10: empty strings for status / scheduled_start / scheduled_end and None
for the remaining optional parameters count as not supplied, so a call on an
existing booking that supplies only reschedule_reason returns the no-updates
message and changes nothing. -/
theorem update_only_reason_is_noop (env : Env) (s : State) (bid : Int)
    (rr : String) (bk : Booking)
    (henv : env.storeFault = none)
    (hfind : s.bookings.find? (fun b => b.booking_id == bid) = some bk)
    (hord : bk.scheduled_start < bk.scheduled_end) :
    update_party_booking env s bid "" DTStr.empty DTStr.empty none none none rr
      = ("No updates were provided.", s) := by
  unfold update_party_booking
  simp only [_make_request, henv, hfind, parseDT, Option.getD_none, Option.isSome_none,
    Bool.or_false, Bool.false_or, ite_true, eq_self_iff_true]
  rw [if_neg (not_le.mpr hord)]
  rfl

/-- Witness for C10 at a concrete booking. -/
theorem update_only_reason_is_noop_witness :
    update_party_booking envOk bookingState 1 "" DTStr.empty DTStr.empty
        none none none "guest emergency"
      = ("No updates were provided.", bookingState) :=
  update_only_reason_is_noop envOk bookingState 1 "guest emergency" sampleBooking
    (by decide) (by decide) (by decide)

/-- The conflict condition of the spec, spelled as an existential. -/
def ConflictExists (s : State) (rid t1 t2 : Int) : Prop :=
  ∃ b ∈ s.bookings, b.resource_id = rid ∧ isActiveStatus b.status = true
    ∧ b.scheduled_start < t2 ∧ t1 < b.scheduled_end

instance (s : State) (rid t1 t2 : Int) : Decidable (ConflictExists s rid t1 t2) := by
  unfold ConflictExists
  infer_instance

theorem bookingConflicts_none_ne_nil_iff (s : State) (rid t1 t2 : Int) :
    bookingConflicts s rid none t1 t2 ≠ [] ↔ ConflictExists s rid t1 t2 := by
  unfold bookingConflicts ConflictExists
  rw [Ne, List.filter_eq_nil_iff]
  push_neg
  constructor
  · rintro ⟨b, hb, hpred⟩
    refine ⟨b, hb, ?_⟩
    simpa [beq_iff_eq, decide_eq_true_eq, and_assoc] using hpred
  · rintro ⟨b, hb, h1, h2, h3, h4⟩
    refine ⟨b, hb, ?_⟩
    simp [beq_iff_eq, decide_eq_true_eq, h1, h2, h3, h4]

/-- C3: with valid inputs on an existing customer, create_party_booking is
blocked with the room-already-booked message and no insertion exactly when an
existing active booking on the resource satisfies the half-open overlap test
against the requested window; otherwise (including windows that merely touch)
the booking row is inserted. -/
theorem create_booking_conflict_rule (env : Env) (s : State)
    (cid pid rid t1 t2 ak ag : Int) (sr st ns : String)
    (henv : env.storeFault = none)
    (hak : 0 ≤ ak) (hag : 0 ≤ ag)
    (hst : _normalize_choice st PARTY_STATUSES = some ns)
    (hord : t1 < t2)
    (hcust : (s.customers.find? (fun c => c.customer_id == cid)).isSome) :
    (ConflictExists s rid t1 t2 →
      create_party_booking env s cid pid rid (DTStr.valid t1) (DTStr.valid t2) ak ag sr st
        = ("That room is already booked during the requested time.", s))
    ∧ (¬ ConflictExists s rid t1 t2 →
      create_party_booking env s cid pid rid (DTStr.valid t1) (DTStr.valid t2) ak ag sr st
        = ("Created party booking #" ++ toString s.next_id ++ " from " ++ toString t1
             ++ " to " ++ toString t2 ++ " with status " ++ ns ++ ".",
           { s with bookings := s.bookings ++ [{ booking_id := s.next_id
                                                 package_id := pid
                                                 resource_id := rid
                                                 customer_id := cid
                                                 scheduled_start := t1
                                                 scheduled_end := t2
                                                 status := ns
                                                 additional_kids := ak
                                                 additional_guests := ag
                                                 special_requests := strOrNone sr }]
                    next_id := s.next_id + 1 })) := by
  rcases Option.isSome_iff_exists.mp hcust with ⟨c, hc⟩
  constructor
  · intro hconf
    have hne : bookingConflicts s rid none t1 t2 ≠ [] :=
      (bookingConflicts_none_ne_nil_iff s rid t1 t2).mpr hconf
    unfold create_party_booking
    rw [if_neg (by omega), hst]
    simp only [parseDT]
    rw [if_neg (not_le.mpr hord)]
    simp only [_make_request, henv, hc]
    rw [if_neg (by simpa [List.isEmpty_iff] using hne)]
  · intro hconf
    have hnil : bookingConflicts s rid none t1 t2 = [] := by
      by_contra hne
      exact hconf ((bookingConflicts_none_ne_nil_iff s rid t1 t2).mp hne)
    unfold create_party_booking
    rw [if_neg (by omega), hst]
    simp only [parseDT]
    rw [if_neg (not_le.mpr hord)]
    simp only [_make_request, henv, hc, hnil]
    rfl

/-- Witness for C3: a window touching an existing active booking at its end
point is accepted and inserted. -/
theorem create_booking_conflict_rule_witness :
    create_party_booking envOk bookingState 1 2 5 (DTStr.valid 30) (DTStr.valid 50)
        0 0 "" "Pending"
      = ("Created party booking #2 from 30 to 50 with status Pending.",
         { bookingState with
             bookings := bookingState.bookings ++ [{ booking_id := 2
                                                     package_id := 2
                                                     resource_id := 5
                                                     customer_id := 1
                                                     scheduled_start := 30
                                                     scheduled_end := 50
                                                     status := "Pending"
                                                     additional_kids := 0
                                                     additional_guests := 0
                                                     special_requests := none }]
             next_id := 3 }) := by
  have h := (create_booking_conflict_rule envOk bookingState 1 2 5 30 50 0 0 "" "Pending"
    "Pending" (by decide) (by decide) (by decide) (by decide) (by decide) (by decide)).2
    (by decide)
  simpa using h

/-- An exact 2-decimal currency value. -/
def twoDec (x : ℚ) : Prop := ∃ n : Int, x = (n : ℚ) / 100

theorem twoDec_pyRound2 (x : ℚ) : twoDec (pyRound2 x) := ⟨pyRound2Int x, rfl⟩

theorem twoDec_add {a b : ℚ} (ha : twoDec a) (hb : twoDec b) : twoDec (a + b) := by
  rcases ha with ⟨m, rfl⟩
  rcases hb with ⟨n, rfl⟩
  exact ⟨m + n, by push_cast; ring⟩

theorem twoDec_sub {a b : ℚ} (ha : twoDec a) (hb : twoDec b) : twoDec (a - b) := by
  rcases ha with ⟨m, rfl⟩
  rcases hb with ⟨n, rfl⟩
  exact ⟨m - n, by push_cast; ring⟩

/-- C7: add_order_item computes the line total as round(quantity × unit_price, 2),
stores the unit price unrounded on the item row, and the subtotal and total it
writes back are exact 2-decimal values whenever the order it read held
2-decimal values. -/
theorem add_order_item_rounding (env : Env) (s : State) (order_id : Int)
    (item_type : String) (reference_id quantity : Int) (unit_price_usd : ℚ)
    (name_override nt : String) (o0 : Order)
    (henv : env.storeFault = none)
    (hnt : _normalize_choice item_type ITEM_TYPES = some nt)
    (hq : 0 < quantity) (hp : 0 ≤ unit_price_usd)
    (hfind : s.orders.find? (fun o => o.order_id == order_id) = some o0) :
    ((add_order_item env s order_id item_type reference_id quantity unit_price_usd
        name_override).2.order_items
      = s.order_items ++ [{ order_id := order_id
                            item_type := nt
                            product_id := if nt = "Product" then some reference_id else none
                            ticket_type_id := if nt = "Ticket" then some reference_id else none
                            booking_id := if nt = "Party" then some reference_id else none
                            name_override := strOrNone name_override
                            quantity := quantity
                            unit_price_usd := unit_price_usd
                            line_total_usd := pyRound2 ((quantity : ℚ) * unit_price_usd) }])
    ∧ ((add_order_item env s order_id item_type reference_id quantity unit_price_usd
        name_override).2.orders
      = s.orders.map (fun o =>
          if o.order_id == order_id then
            { o with
              subtotal_usd := o0.subtotal_usd + pyRound2 ((quantity : ℚ) * unit_price_usd)
              total_usd := o0.subtotal_usd + pyRound2 ((quantity : ℚ) * unit_price_usd)
                  - o0.discount_usd + o0.tax_usd
              updated_at := env.now }
          else o))
    ∧ twoDec (pyRound2 ((quantity : ℚ) * unit_price_usd))
    ∧ (twoDec o0.subtotal_usd → twoDec o0.discount_usd → twoDec o0.tax_usd →
        twoDec (o0.subtotal_usd + pyRound2 ((quantity : ℚ) * unit_price_usd))
        ∧ twoDec (o0.subtotal_usd + pyRound2 ((quantity : ℚ) * unit_price_usd)
            - o0.discount_usd + o0.tax_usd)) := by
  simp only [add_order_item, hnt]
  rw [if_neg (not_le.mpr hq), if_neg (not_lt.mpr hp)]
  simp only [_make_request, henv, hfind]
  refine ⟨by trivial, by trivial, twoDec_pyRound2 _, ?_⟩
  intro h1 h2 h3
  have hsub := twoDec_add h1 (twoDec_pyRound2 ((quantity : ℚ) * unit_price_usd))
  exact ⟨hsub, twoDec_add (twoDec_sub hsub h2) h3⟩

/-- Witness for C7: 3 tickets at 3.333 give a line total rounded to 10.00 and
a 2-decimal subtotal and total on the order. -/
theorem add_order_item_rounding_witness :
    (add_order_item envOk refundState 1 "ticket" 2 3 (3333/1000) "").2.order_items
      = refundState.order_items ++ [{ order_id := 1
                                      item_type := "Ticket"
                                      product_id := none
                                      ticket_type_id := some 2
                                      booking_id := none
                                      name_override := none
                                      quantity := 3
                                      unit_price_usd := 3333/1000
                                      line_total_usd := 10 }] := by
  have h := (add_order_item_rounding envOk refundState 1 "ticket" 2 3 (3333/1000) ""
    "Ticket" (sampleOrder 1) (by decide) (by decide) (by decide) (by norm_num)
    (by decide)).1
  rw [h]
  have hfloor : ⌊(((3 : Int) : ℚ) * (3333/1000)) * 100⌋ = (999 : Int) := by
    rw [Int.floor_eq_iff]
    constructor <;> norm_num
  have hval : pyRound2 (((3 : Int) : ℚ) * (3333/1000)) = 10 := by
    simp only [pyRound2, pyRound2Int, hfloor]
    rw [if_neg (by norm_num), if_pos (by norm_num)]
    norm_num
  rw [hval]
  simp [strOrNone, pyStrip]

/-! ## Order totals invariant (C2) -/

/-- Arguments of one add_order_item call on a fixed order. -/
structure AddArgs where
  item_type : String
  reference_id : Int
  quantity : Int
  unit_price_usd : ℚ
  name_override : String

/-- Run a sequence of add_order_item calls against order `oid`. -/
def runAddItems (env : Env) (oid : Int) (calls : List AddArgs) (s : State) : State :=
  calls.foldl (fun st a =>
    (add_order_item env st oid a.item_type a.reference_id a.quantity
      a.unit_price_usd a.name_override).2) s

/-- Sum of the line totals recorded for order `oid`. -/
def orderItemsSum (s : State) (oid : Int) : ℚ :=
  ((s.order_items.filter (fun it => it.order_id == oid)).map
    (fun it => it.line_total_usd)).sum

/-- The ledger consistency property of the spec for order `oid`. -/
def TotalsOk (s : State) (oid : Int) : Prop :=
  ∀ o ∈ s.orders, o.order_id = oid →
    o.total_usd = o.subtotal_usd - o.discount_usd + o.tax_usd
    ∧ o.subtotal_usd = orderItemsSum s oid

/-- Store id discipline for orders and order items. -/
def OrdersWF (s : State) : Prop :=
  (∀ o ∈ s.orders, o.order_id < s.next_id)
  ∧ s.orders.Pairwise (fun a b => a.order_id ≠ b.order_id)
  ∧ (∀ it ∈ s.order_items, it.order_id < s.next_id)

theorem create_order_establishes_totals (env : Env) (s : State) (cid : Int)
    (it : String) (rid q : Int) (p : ℚ) (loc : Option Int) (note ovr nt : String)
    (c : Customer)
    (henv : env.storeFault = none)
    (hnt : _normalize_choice it ITEM_TYPES = some nt)
    (hq : 0 < q) (hp : 0 ≤ p)
    (hcust : s.customers.find? (fun x => x.customer_id == cid) = some c)
    (hwf : OrdersWF s) :
    TotalsOk (create_order_with_item env s cid it rid q p loc note ovr).2 s.next_id
    ∧ OrdersWF (create_order_with_item env s cid it rid q p loc note ovr).2 := by
  simp only [create_order_with_item, hnt]
  rw [if_neg (not_le.mpr hq), if_neg (not_lt.mpr hp)]
  simp only [_make_request, henv, hcust]
  constructor
  · intro o ho hoid
    simp only [List.mem_append, List.mem_singleton] at ho
    rcases ho with ho | rfl
    · exact absurd hoid (by have := hwf.1 o ho; omega)
    · refine ⟨by ring, ?_⟩
      have hfil : (s.order_items.filter (fun itx => itx.order_id == s.next_id)) = [] := by
        rw [List.filter_eq_nil_iff]
        intro itx hitx
        have := hwf.2.2 itx hitx
        simp only [beq_iff_eq]
        omega
      simp [orderItemsSum, List.filter_append, hfil]
  · refine ⟨?_, ?_, ?_⟩
    · intro o ho
      simp only [List.mem_append, List.mem_singleton] at ho
      rcases ho with ho | rfl
      · have := hwf.1 o ho; simpa using by omega
      · simp
    · rw [List.pairwise_append]
      refine ⟨hwf.2.1, List.pairwise_singleton _ _, ?_⟩
      intro a ha b hb
      simp only [List.mem_singleton] at hb
      subst hb
      have := hwf.1 a ha
      simp only []
      omega
    · intro itx hitx
      simp only [List.mem_append, List.mem_singleton] at hitx
      rcases hitx with hitx | rfl
      · have := hwf.2.2 itx hitx; simpa using by omega
      · simp

theorem add_order_item_preserves_totals (env : Env) (s : State) (oid : Int)
    (a : AddArgs)
    (henv : env.storeFault = none)
    (hto : TotalsOk s oid) (hwf : OrdersWF s) :
    TotalsOk (add_order_item env s oid a.item_type a.reference_id a.quantity
        a.unit_price_usd a.name_override).2 oid
    ∧ OrdersWF (add_order_item env s oid a.item_type a.reference_id a.quantity
        a.unit_price_usd a.name_override).2 := by
  unfold add_order_item
  cases hnt : _normalize_choice a.item_type ITEM_TYPES with
  | none => exact ⟨hto, hwf⟩
  | some nt =>
    dsimp only
    by_cases hq : a.quantity ≤ 0
    · rw [if_pos hq]; exact ⟨hto, hwf⟩
    · rw [if_neg hq]
      by_cases hp : a.unit_price_usd < 0
      · rw [if_pos hp]; exact ⟨hto, hwf⟩
      · rw [if_neg hp]
        cases hfind : s.orders.find? (fun o => o.order_id == oid) with
        | none => simp only [_make_request, henv]; exact ⟨hto, hwf⟩
        | some o0 =>
          simp only [_make_request, henv]
          have ho0mem : o0 ∈ s.orders := List.mem_of_find?_eq_some hfind
          have ho0id : o0.order_id = oid := by
            have := List.find?_some hfind
            simpa [beq_iff_eq] using this
          have hsum : o0.subtotal_usd = orderItemsSum s oid := (hto o0 ho0mem ho0id).2
          constructor
          · intro o ho hoid
            simp only [List.mem_map] at ho
            rcases ho with ⟨a0, ha0, rfl⟩
            by_cases hid : a0.order_id = oid
            · have hbid : (a0.order_id == oid) = true := by simpa [beq_iff_eq] using hid
              have ha0eq : a0 = o0 :=
                pairwise_key_unique (fun o => o.order_id) hwf.2.1 ha0 ho0mem
                  (by show a0.order_id = o0.order_id; rw [hid, ho0id])
              subst ha0eq
              rw [if_pos hbid]
              refine ⟨by ring, ?_⟩
              have : orderItemsSum { s with
                  order_items := s.order_items ++ [{ order_id := oid
                                                     item_type := nt
                                                     product_id := if nt = "Product" then some a.reference_id else none
                                                     ticket_type_id := if nt = "Ticket" then some a.reference_id else none
                                                     booking_id := if nt = "Party" then some a.reference_id else none
                                                     name_override := strOrNone a.name_override
                                                     quantity := a.quantity
                                                     unit_price_usd := a.unit_price_usd
                                                     line_total_usd := pyRound2 ((a.quantity : ℚ) * a.unit_price_usd) }] } oid
                  = orderItemsSum s oid + pyRound2 ((a.quantity : ℚ) * a.unit_price_usd) := by
                simp [orderItemsSum, List.filter_append]
              simp only [orderItemsSum] at this ⊢
              simp only [this, hsum]
              rw [orderItemsSum]
            · have hbid : (a0.order_id == oid) = false := by
                simpa [beq_iff_eq] using hid
              rw [if_neg (by simp [hbid])] at hoid ⊢
              exact absurd hoid hid
          · refine ⟨?_, ?_, ?_⟩
            · intro o ho
              simp only [List.mem_map] at ho
              rcases ho with ⟨a0, ha0, rfl⟩
              have := hwf.1 a0 ha0
              by_cases hid : (a0.order_id == oid) = true
              · rw [if_pos hid]; simpa using this
              · rw [if_neg hid]; exact this
            · rw [List.pairwise_map]
              refine hwf.2.1.imp_of_mem ?_
              intro x y hx hy hxy
              by_cases hix : (x.order_id == oid) = true
                <;> by_cases hiy : (y.order_id == oid) = true
                <;> simp [hix, hiy, hxy]
            · intro itx hitx
              simp only [List.mem_append, List.mem_singleton] at hitx
              rcases hitx with hitx | rfl
              · exact hwf.2.2 itx hitx
              · simpa using by have := hwf.1 o0 ho0mem; omega

/-- C2: starting from a freshly created order, any sequence of
add_order_item calls on it keeps total = subtotal − discount + tax and
subtotal = sum of the line totals inserted so far, after every call. -/
theorem order_totals_consistent (env : Env) (s : State) (cid : Int)
    (it : String) (rid q : Int) (p : ℚ) (loc : Option Int) (note ovr nt : String)
    (c : Customer)
    (henv : env.storeFault = none)
    (hnt : _normalize_choice it ITEM_TYPES = some nt)
    (hq : 0 < q) (hp : 0 ≤ p)
    (hcust : s.customers.find? (fun x => x.customer_id == cid) = some c)
    (hwf : OrdersWF s) :
    ∀ calls : List AddArgs,
      TotalsOk (runAddItems env s.next_id calls
        (create_order_with_item env s cid it rid q p loc note ovr).2) s.next_id := by
  have base := create_order_establishes_totals env s cid it rid q p loc note ovr nt c
    henv hnt hq hp hcust hwf
  have step : ∀ (calls : List AddArgs) (st : State),
      TotalsOk st s.next_id → OrdersWF st →
      TotalsOk (runAddItems env s.next_id calls st) s.next_id
      ∧ OrdersWF (runAddItems env s.next_id calls st) := by
    intro calls
    induction calls with
    | nil => intro st h1 h2; exact ⟨h1, h2⟩
    | cons a rest ih =>
      intro st h1 h2
      have hstep := add_order_item_preserves_totals env st s.next_id a henv h1 h2
      exact ih _ hstep.1 hstep.2
  intro calls
  exact (step calls _ base.1 base.2).1

/-- Witness for C2: create an order with 3 products at 9.99, then add one
ticket at 15; the totals invariant holds afterwards. -/
theorem order_totals_consistent_witness :
    TotalsOk (runAddItems envOk 1 [{ item_type := "Ticket"
                                     reference_id := 2
                                     quantity := 1
                                     unit_price_usd := 15
                                     name_override := "" }]
      (create_order_with_item envOk sampleState 1 "Product" 5 3 (999/100)
        none "" "").2) 1 :=
  order_totals_consistent envOk sampleState 1 "Product" 5 3 (999/100) none "" ""
    "Product" { customer_id := 1 } (by decide) (by decide) (by decide) (by norm_num)
    (by decide) (by simp [OrdersWF, sampleState])
    [{ item_type := "Ticket", reference_id := 2, quantity := 1,
       unit_price_usd := 15, name_override := "" }]

/-- C4: under the conditions that make an update acceptable, a
PartyReschedule row is appended exactly when the resolved start or end
differs from the stored window, and it records the old and new bounds and
the reason; in particular an update that supplies no new start or end (such
as one changing only additional_kids) appends nothing. -/
theorem reschedule_iff_window_changed (env : Env) (s : State) (bid : Int)
    (st : String) (ss se : DTStr) (ak ag : Option Int) (sr : Option String)
    (rr : String) (bk : Booking)
    (henv : env.storeFault = none)
    (hfind : s.bookings.find? (fun b => b.booking_id == bid) = some bk)
    (hst : st = "" ∨ ∃ ns, _normalize_choice st PARTY_STATUSES = some ns)
    (hss : ss ≠ DTStr.invalid) (hse : se ≠ DTStr.invalid)
    (hord : (parseDT ss).getD bk.scheduled_start < (parseDT se).getD bk.scheduled_end)
    (hconf : bookingConflicts s bk.resource_id (some bid)
        ((parseDT ss).getD bk.scheduled_start) ((parseDT se).getD bk.scheduled_end) = [])
    (hak : ∀ k, ak = some k → 0 ≤ k)
    (hag : ∀ g, ag = some g → 0 ≤ g) :
    (update_party_booking env s bid st ss se ak ag sr rr).2.reschedules
      = s.reschedules ++
        (if (parseDT ss).getD bk.scheduled_start ≠ bk.scheduled_start
            ∨ (parseDT se).getD bk.scheduled_end ≠ bk.scheduled_end then
          [{ booking_id := bid
             old_start := bk.scheduled_start
             old_end := bk.scheduled_end
             new_start := (parseDT ss).getD bk.scheduled_start
             new_end := (parseDT se).getD bk.scheduled_end
             reason := strOrNone rr }]
        else []) := by
  have hkfalse : negIntOpt ak = false := by
    cases ak with
    | none => rfl
    | some k => simpa [negIntOpt] using not_lt.mpr (hak k rfl)
  have hgfalse : negIntOpt ag = false := by
    cases ag with
    | none => rfl
    | some g => simpa [negIntOpt] using not_lt.mpr (hag g rfl)
  have hstval : (if st = "" then some (none : Option String)
      else match _normalize_choice st PARTY_STATUSES with
           | none => none
           | some ns => some (some ns)) ≠ none := by
    by_cases h0 : st = ""
    · simp [h0]
    · rcases hst with h | ⟨ns, hns⟩
      · exact absurd h h0
      · simp [h0, hns]
  unfold update_party_booking
  simp only [_make_request, henv, hfind]
  cases hv : (if st = "" then some (none : Option String)
      else match _normalize_choice st PARTY_STATUSES with
           | none => none
           | some ns => some (some ns)) with
  | none => exact absurd hv hstval
  | some status_upd =>
    simp only [hv]
    cases ss with
    | invalid => exact absurd rfl hss
    | empty =>
      cases se with
      | invalid => exact absurd rfl hse
      | empty =>
        simp only [parseDT, Option.getD_none] at hord ⊢
        rw [if_neg (not_le.mpr hord)]
        simp only [hkfalse, hgfalse]
        simp
        split <;> rfl
      | valid t2 =>
        simp only [parseDT, Option.getD_none, Option.getD_some] at hord hconf ⊢
        rw [if_neg (not_le.mpr hord)]
        by_cases hch : t2 = bk.scheduled_end
        · subst hch; simp [hconf, hkfalse, hgfalse]
        · simp [hconf, hkfalse, hgfalse, hch]
    | valid t1 =>
      cases se with
      | invalid => exact absurd rfl hse
      | empty =>
        simp only [parseDT, Option.getD_none, Option.getD_some] at hord hconf ⊢
        rw [if_neg (not_le.mpr hord)]
        by_cases hch : t1 = bk.scheduled_start
        · subst hch; simp [hconf, hkfalse, hgfalse]
        · simp [hconf, hkfalse, hgfalse, hch]
      | valid t2 =>
        simp only [parseDT, Option.getD_some] at hord hconf ⊢
        rw [if_neg (not_le.mpr hord)]
        by_cases hch1 : t1 = bk.scheduled_start
        · subst hch1
          by_cases hch2 : t2 = bk.scheduled_end
          · subst hch2; simp [hconf, hkfalse, hgfalse]
          · simp [hconf, hkfalse, hgfalse, hch2]
        · by_cases hch2 : t2 = bk.scheduled_end
          · subst hch2; simp [hconf, hkfalse, hgfalse, hch1]
          · simp [hconf, hkfalse, hgfalse, hch1, hch2]

/-- Witness for C4: supplying only additional_kids leaves the reschedule
table unchanged. -/
theorem reschedule_iff_window_changed_witness :
    (update_party_booking envOk bookingState 1 "" DTStr.empty DTStr.empty
        (some 4) none none "").2.reschedules = bookingState.reschedules := by
  have h := reschedule_iff_window_changed envOk bookingState 1 "" DTStr.empty
    DTStr.empty (some 4) none none "" sampleBooking (by decide) (by decide)
    (Or.inl rfl) (by decide) (by decide) (by decide) (by decide)
    (by intro k hk; cases hk; decide) (by intro g hg; cases hg)
  simpa using h

/-- A store client whose requests fail with an authorization error. -/
def envFault : Env := { storeFault := some "401 Unauthorized", now := 0 }

/-- C6 counterexample: with a failing store client and valid business inputs,
create_party_booking returns the caller-facing result string built from the
transport failure instead of letting the fault escape: the operation catches
every exception and stringifies it, contradicting the claim that
transport/authorization failures abort the call rather than being returned
as caller-facing result strings. -/
theorem transport_fault_stringified :
    create_party_booking envFault sampleState 1 1 5 (DTStr.valid 10) (DTStr.valid 30)
        0 0 "" "Pending"
      = ("Error creating party booking: 401 Unauthorized", sampleState) := by
  decide

/-- C6 amended: business-rule violations are returned as caller-facing
messages without touching the store; the store client surfaces
transport/authorization failures as raised exceptions; but each core
operation catches every exception and returns it as an Error-prefixed
caller-facing result string, so no fault escapes the operation itself. -/
theorem error_model_two_tier :
    (∀ (α : Type) (env : Env) (x : α) (e : String), env.storeFault = some e →
      _make_request env x = Except.error e)
    ∧ (∀ env s cid pid rid ss se (ak ag : Int) sr st, 0 ≤ ak → 0 ≤ ag →
        _normalize_choice st PARTY_STATUSES = none →
        create_party_booking env s cid pid rid ss se ak ag sr st
          = ("Status must be one of: " ++ joinChoices PARTY_STATUSES, s))
    ∧ (∀ env s cid pid rid (t1 t2 ak ag : Int) sr st ns e,
        env.storeFault = some e → 0 ≤ ak → 0 ≤ ag →
        _normalize_choice st PARTY_STATUSES = some ns → t1 < t2 →
        create_party_booking env s cid pid rid (DTStr.valid t1) (DTStr.valid t2)
            ak ag sr st
          = ("Error creating party booking: " ++ e, s)) := by
  refine ⟨?_, ?_, ?_⟩
  · intro α env x e he
    unfold _make_request
    rw [he]
  · intro env s cid pid rid ss se ak ag sr st hak hag hnone
    unfold create_party_booking
    rw [if_neg (by omega), hnone]
  · intro env s cid pid rid t1 t2 ak ag sr st ns e he hak hag hst hord
    unfold create_party_booking
    rw [if_neg (by omega), hst]
    simp only [parseDT]
    rw [if_neg (not_le.mpr hord)]
    simp only [_make_request, he]

/-- Witness for C6 amended, at concrete inputs for each conjunct. -/
theorem error_model_two_tier_witness :
    _make_request envFault (0 : Int) = Except.error "401 Unauthorized"
    ∧ create_party_booking envFault sampleState 1 1 5 (DTStr.valid 10)
        (DTStr.valid 30) 0 0 "" "bogus"
      = ("Status must be one of: " ++ joinChoices PARTY_STATUSES, sampleState)
    ∧ create_party_booking envFault sampleState 2 1 5 (DTStr.valid 10)
        (DTStr.valid 30) 0 0 "" "Confirmed"
      = ("Error creating party booking: 401 Unauthorized", sampleState) :=
  ⟨error_model_two_tier.1 Int envFault 0 "401 Unauthorized" rfl,
   error_model_two_tier.2.1 envFault sampleState 1 1 5 (DTStr.valid 10)
     (DTStr.valid 30) 0 0 "" "bogus" (by decide) (by decide) (by decide),
   error_model_two_tier.2.2 envFault sampleState 2 1 5 10 30 0 0 "" "Confirmed"
     "Confirmed" "401 Unauthorized" rfl (by decide) (by decide) (by decide)
     (by decide)⟩

/-! ## No-overlap invariant (C1) -/

instance (s : State) : Decidable (NoOverlapInv s) := by
  unfold NoOverlapInv overlapHalfOpen
  infer_instance

instance (s : State) : Decidable (BookingIdsWF s) := by
  unfold BookingIdsWF
  infer_instance

theorem make_request_ok {α : Type} {env : Env} {x y : α}
    (h : _make_request env x = Except.ok y) : y = x := by
  unfold _make_request at h
  cases henv : env.storeFault with
  | some e => rw [henv] at h; simp at h
  | none => rw [henv] at h; simpa using h.symm

theorem conflicts_none_empty (s : State) (rid fs fe : Int)
    (h : (bookingConflicts s rid none fs fe).isEmpty = true) :
    ∀ b ∈ s.bookings, b.resource_id = rid → isActiveStatus b.status = true →
      ¬(b.scheduled_start < fe ∧ fs < b.scheduled_end) := by
  rw [List.isEmpty_iff] at h
  rw [bookingConflicts, List.filter_eq_nil_iff] at h
  intro b hb hres hact hover
  exact h b hb (by simp [hres, hact, hover.1, hover.2])

theorem conflicts_excl_empty (s : State) (rid bid fs fe : Int)
    (h : (bookingConflicts s rid (some bid) fs fe).isEmpty = true) :
    ∀ b ∈ s.bookings, b.resource_id = rid → b.booking_id ≠ bid →
      isActiveStatus b.status = true →
      ¬(b.scheduled_start < fe ∧ fs < b.scheduled_end) := by
  rw [List.isEmpty_iff] at h
  rw [bookingConflicts, List.filter_eq_nil_iff] at h
  intro b hb hres hneq hact hover
  exact h b hb (by simp [hres, hact, hover.1, hover.2, bne_iff_ne, hneq])

/-- Inserting a booking whose window passed the conflict query preserves the
no-overlap invariant and the id discipline. -/
theorem no_overlap_insert (s : State) (nb : Booking)
    (hno : NoOverlapInv s) (hwf : BookingIdsWF s)
    (hid : nb.booking_id = s.next_id)
    (hconf : ∀ b ∈ s.bookings, b.resource_id = nb.resource_id →
        isActiveStatus b.status = true →
        ¬(b.scheduled_start < nb.scheduled_end ∧ nb.scheduled_start < b.scheduled_end)) :
    NoOverlapInv { s with bookings := s.bookings ++ [nb], next_id := s.next_id + 1 }
    ∧ BookingIdsWF { s with bookings := s.bookings ++ [nb], next_id := s.next_id + 1 } := by
  constructor
  · intro b1 hb1 b2 hb2 hne hres hact1 hact2
    simp only [List.mem_append, List.mem_singleton] at hb1 hb2
    unfold overlapHalfOpen
    rcases hb1 with hb1 | rfl <;> rcases hb2 with hb2 | rfl
    · exact hno b1 hb1 b2 hb2 hne hres hact1 hact2
    · exact hconf b1 hb1 hres hact1
    · rintro ⟨h1, h2⟩
      exact hconf b2 hb2 hres.symm hact2 ⟨h2, h1⟩
    · exact absurd rfl hne
  · constructor
    · intro b hb
      simp only [List.mem_append, List.mem_singleton] at hb
      rcases hb with hb | rfl
      · have := hwf.1 b hb
        simp only []
        omega
      · simp only [hid]
        omega
    · rw [List.pairwise_append]
      refine ⟨hwf.2, List.pairwise_singleton _ _, ?_⟩
      intro a ha b hb
      simp only [List.mem_singleton] at hb
      subst hb
      have := hwf.1 a ha
      rw [hid]
      omega

/-- Updating the window of one booking to a window that passed the
self-excluding conflict query preserves the invariant. -/
theorem no_overlap_map_sched (s : State) (bid : Int) (bk : Booking) (fs fe : Int)
    (f : Booking → Booking)
    (hfid : ∀ b, (f b).booking_id = b.booking_id)
    (hfres : ∀ b, (f b).resource_id = b.resource_id)
    (hfs : ∀ b, (f b).scheduled_start = fs)
    (hfe : ∀ b, (f b).scheduled_end = fe)
    (hno : NoOverlapInv s) (hwf : BookingIdsWF s)
    (hmem : bk ∈ s.bookings) (hbid : bk.booking_id = bid)
    (hconf : ∀ b ∈ s.bookings, b.resource_id = bk.resource_id → b.booking_id ≠ bid →
        isActiveStatus b.status = true →
        ¬(b.scheduled_start < fe ∧ fs < b.scheduled_end)) :
    NoOverlapInv { s with bookings := s.bookings.map
                                        (fun b => if b.booking_id == bid then f b else b) }
    ∧ BookingIdsWF { s with bookings := s.bookings.map
                                          (fun b => if b.booking_id == bid then f b else b) } := by
  have helemEq : ∀ a : Booking, a.booking_id = bid →
      (if a.booking_id == bid then f a else a) = f a := by
    intro a h
    rw [if_pos (by simpa [beq_iff_eq] using h)]
  have helemNe : ∀ a : Booking, a.booking_id ≠ bid →
      (if a.booking_id == bid then f a else a) = a := by
    intro a h
    rw [if_neg (by simpa [beq_iff_eq] using h)]
  constructor
  · intro b1 hb1 b2 hb2 hne hres hact1 hact2
    simp only [List.mem_map] at hb1 hb2
    rcases hb1 with ⟨a1, ha1, rfl⟩
    rcases hb2 with ⟨a2, ha2, rfl⟩
    unfold overlapHalfOpen
    by_cases h1 : a1.booking_id = bid <;> by_cases h2 : a2.booking_id = bid
    · exfalso
      apply hne
      rw [helemEq a1 h1, helemEq a2 h2, hfid, hfid, h1, h2]
    · have ha1bk : a1 = bk :=
        pairwise_key_unique (fun b => b.booking_id) hwf.2 ha1 hmem
          (by show a1.booking_id = bk.booking_id; rw [h1, hbid])
      rw [helemEq a1 h1] at hres hact1 ⊢
      rw [helemNe a2 h2] at hres hact2 ⊢
      have hres2 : a2.resource_id = bk.resource_id := by
        rw [← hres, hfres, ha1bk]
      rw [hfs a1, hfe a1]
      rintro ⟨ho1, ho2⟩
      exact hconf a2 ha2 hres2 h2 hact2 ⟨ho2, ho1⟩
    · have ha2bk : a2 = bk :=
        pairwise_key_unique (fun b => b.booking_id) hwf.2 ha2 hmem
          (by show a2.booking_id = bk.booking_id; rw [h2, hbid])
      rw [helemNe a1 h1] at hres hact1 ⊢
      rw [helemEq a2 h2] at hres hact2 ⊢
      have hres1 : a1.resource_id = bk.resource_id := by
        rw [hres, hfres, ha2bk]
      rw [hfs a2, hfe a2]
      rintro ⟨ho1, ho2⟩
      exact hconf a1 ha1 hres1 h1 hact1 ⟨ho1, ho2⟩
    · rw [helemNe a1 h1] at hres hact1 ⊢
      rw [helemNe a2 h2] at hres hact2 ⊢
      have hne12 : a1.booking_id ≠ a2.booking_id := by
        intro h
        apply hne
        rw [helemNe a1 h1, helemNe a2 h2, h]
      exact hno a1 ha1 a2 ha2 hne12 hres hact1 hact2
  · constructor
    · intro b hb
      simp only [List.mem_map] at hb
      rcases hb with ⟨a, ha, rfl⟩
      have := hwf.1 a ha
      by_cases h : a.booking_id = bid
      · rw [helemEq a h, hfid]
        exact this
      · rw [helemNe a h]
        exact this
    · rw [List.pairwise_map]
      refine hwf.2.imp_of_mem ?_
      intro x y hx hy hxy
      show (if x.booking_id == bid then f x else x).booking_id
        ≠ (if y.booking_id == bid then f y else y).booking_id
      by_cases h1 : x.booking_id = bid <;> by_cases h2 : y.booking_id = bid
      · exact absurd (h1.trans h2.symm) hxy
      · rw [helemEq x h1, helemNe y h2, hfid]
        exact hxy
      · rw [helemNe x h1, helemEq y h2, hfid]
        exact hxy
      · rw [helemNe x h1, helemNe y h2]
        exact hxy


/-- An update that leaves id, resource, status and window of every booking
unchanged preserves the invariant. -/
theorem no_overlap_map_frame (s : State) (bid : Int) (f : Booking → Booking)
    (hfid : ∀ b, (f b).booking_id = b.booking_id)
    (hfres : ∀ b, (f b).resource_id = b.resource_id)
    (hfst : ∀ b, (f b).status = b.status)
    (hfs : ∀ b, (f b).scheduled_start = b.scheduled_start)
    (hfe : ∀ b, (f b).scheduled_end = b.scheduled_end)
    (hno : NoOverlapInv s) (hwf : BookingIdsWF s) :
    NoOverlapInv { s with bookings := s.bookings.map
                                        (fun b => if b.booking_id == bid then f b else b) }
    ∧ BookingIdsWF { s with bookings := s.bookings.map
                                          (fun b => if b.booking_id == bid then f b else b) } := by
  have hsame : ∀ b, (if b.booking_id == bid then f b else b).booking_id = b.booking_id
      ∧ (if b.booking_id == bid then f b else b).resource_id = b.resource_id
      ∧ (if b.booking_id == bid then f b else b).status = b.status
      ∧ (if b.booking_id == bid then f b else b).scheduled_start = b.scheduled_start
      ∧ (if b.booking_id == bid then f b else b).scheduled_end = b.scheduled_end := by
    intro b
    by_cases h : (b.booking_id == bid) = true
    · rw [if_pos h]
      exact ⟨hfid b, hfres b, hfst b, hfs b, hfe b⟩
    · rw [if_neg h]
      exact ⟨rfl, rfl, rfl, rfl, rfl⟩
  constructor
  · intro b1 hb1 b2 hb2 hne hres hact1 hact2
    simp only [List.mem_map] at hb1 hb2
    rcases hb1 with ⟨a1, ha1, rfl⟩
    rcases hb2 with ⟨a2, ha2, rfl⟩
    rcases hsame a1 with ⟨hi1, hr1, hs1, ha1s, ha1e⟩
    rcases hsame a2 with ⟨hi2, hr2, hs2, ha2s, ha2e⟩
    unfold overlapHalfOpen
    rw [ha1s, ha1e, ha2s, ha2e]
    rw [hr1, hr2] at hres
    rw [hs1] at hact1
    rw [hs2] at hact2
    have hne12 : a1.booking_id ≠ a2.booking_id := by
      intro h
      exact hne (by rw [hi1, hi2, h])
    exact hno a1 ha1 a2 ha2 hne12 hres hact1 hact2
  · constructor
    · intro b hb
      simp only [List.mem_map] at hb
      rcases hb with ⟨a, ha, rfl⟩
      rw [(hsame a).1]
      exact hwf.1 a ha
    · rw [List.pairwise_map]
      refine hwf.2.imp_of_mem ?_
      intro x y hx hy hxy
      rw [(hsame x).1, (hsame y).1]
      exact hxy

theorem create_preserves_no_overlap (env : Env) (s : State) (cid pid rid : Int)
    (ss se : DTStr) (ak ag : Int) (sr st : String)
    (hno : NoOverlapInv s) (hwf : BookingIdsWF s) :
    NoOverlapInv (create_party_booking env s cid pid rid ss se ak ag sr st).2
    ∧ BookingIdsWF (create_party_booking env s cid pid rid ss se ak ag sr st).2 := by
  cases henv : env.storeFault with
  | some e =>
    unfold create_party_booking
    simp only [_make_request, henv]
    repeat' split
    all_goals exact ⟨hno, hwf⟩
  | none =>
    unfold create_party_booking
    simp only [_make_request, henv]
    by_cases hkid : ak < 0 ∨ ag < 0
    · rw [if_pos hkid]; exact ⟨hno, hwf⟩
    · rw [if_neg hkid]
      cases hst : _normalize_choice st PARTY_STATUSES with
      | none => exact ⟨hno, hwf⟩
      | some ns =>
        cases hps : parseDT ss with
        | none => exact ⟨hno, hwf⟩
        | some t1 =>
          cases hpe : parseDT se with
          | none => exact ⟨hno, hwf⟩
          | some t2 =>
            dsimp only
            by_cases hord : t2 ≤ t1
            · rw [if_pos hord]; exact ⟨hno, hwf⟩
            · rw [if_neg hord]
              cases hcust : s.customers.find? (fun c => c.customer_id == cid) with
              | none => exact ⟨hno, hwf⟩
              | some c =>
                dsimp only
                by_cases hempty : (bookingConflicts s rid none t1 t2).isEmpty = true
                · rw [if_pos hempty]
                  exact no_overlap_insert s _ hno hwf rfl
                    (conflicts_none_empty s rid t1 t2 hempty)
                · rw [if_neg hempty]
                  exact ⟨hno, hwf⟩

theorem update_preserves_no_overlap (env : Env) (s : State) (bid : Int)
    (st : String) (ss se : DTStr) (ak ag : Option Int) (sr : Option String)
    (rr : String)
    (hcase : ss ≠ DTStr.empty ∨ se ≠ DTStr.empty ∨ st = "")
    (hno : NoOverlapInv s) (hwf : BookingIdsWF s) :
    NoOverlapInv (update_party_booking env s bid st ss se ak ag sr rr).2
    ∧ BookingIdsWF (update_party_booking env s bid st ss se ak ag sr rr).2 := by
  cases henv : env.storeFault with
  | some e =>
    unfold update_party_booking
    simp only [_make_request, henv]
    exact ⟨hno, hwf⟩
  | none =>
    unfold update_party_booking
    simp only [_make_request, henv]
    cases hbk : s.bookings.find? (fun b => b.booking_id == bid) with
    | none => exact ⟨hno, hwf⟩
    | some bk =>
      have hbkmem : bk ∈ s.bookings := List.mem_of_find?_eq_some hbk
      have hbkid : bk.booking_id = bid := by
        have := List.find?_some hbk
        simpa [beq_iff_eq] using this
      dsimp only
      cases hsv : (if st = "" then some (none : Option String)
          else match _normalize_choice st PARTY_STATUSES with
               | none => none
               | some ns => some (some ns)) with
      | none => exact ⟨hno, hwf⟩
      | some status_upd =>
        dsimp only
        cases ss with
        | invalid => exact ⟨hno, hwf⟩
        | empty =>
          cases se with
          | invalid => exact ⟨hno, hwf⟩
          | empty =>
            have hst0 : st = "" := by
              rcases hcase with h | h | h
              · exact absurd rfl h
              · exact absurd rfl h
              · exact h
            have hsu : status_upd = none := by
              rw [if_pos hst0] at hsv
              simpa using hsv.symm
            subst hsu
            simp only [parseDT, Option.getD_none, Option.isSome_none, Bool.or_self,
              Bool.false_or, Bool.false_eq_true, false_and, if_false,
              List.isEmpty_nil, eq_self_iff_true, if_true]
            by_cases hord : bk.scheduled_end ≤ bk.scheduled_start
            · rw [if_pos hord]; exact ⟨hno, hwf⟩
            · rw [if_neg hord]
              by_cases hkneg : negIntOpt ak = true
              · rw [if_pos hkneg]; exact ⟨hno, hwf⟩
              · rw [if_neg hkneg]
                by_cases hgneg : negIntOpt ag = true
                · rw [if_pos hgneg]; exact ⟨hno, hwf⟩
                · rw [if_neg hgneg]
                  split
                  · exact no_overlap_map_frame s bid _ (fun b => rfl) (fun b => rfl)
                      (fun b => rfl) (fun b => rfl) (fun b => rfl) hno hwf
                  · exact ⟨hno, hwf⟩
          | valid t2 =>
            simp only [parseDT, Option.getD_none, Option.getD_some, Option.isSome_none,
              Option.isSome_some, Bool.or_false, Bool.false_or, Bool.true_or,
              Bool.or_true, eq_self_iff_true, if_true, true_and]
            by_cases hord : t2 ≤ bk.scheduled_start
            · rw [if_pos hord]; exact ⟨hno, hwf⟩
            · rw [if_neg hord]
              by_cases hempty : (bookingConflicts s bk.resource_id (some bid)
                  bk.scheduled_start t2).isEmpty = true
              · rw [if_pos hempty]
                by_cases hkneg : negIntOpt ak = true
                · rw [if_pos hkneg]; exact ⟨hno, hwf⟩
                · rw [if_neg hkneg]
                  by_cases hgneg : negIntOpt ag = true
                  · rw [if_pos hgneg]; exact ⟨hno, hwf⟩
                  · rw [if_neg hgneg]
                    split
                    · exact no_overlap_map_sched s bid bk bk.scheduled_start t2 _
                        (fun b => rfl) (fun b => rfl) (fun b => rfl) (fun b => rfl)
                        hno hwf hbkmem hbkid (conflicts_excl_empty s bk.resource_id
                          bid bk.scheduled_start t2 hempty)
                    · exact no_overlap_map_sched s bid bk bk.scheduled_start t2 _
                        (fun b => rfl) (fun b => rfl) (fun b => rfl) (fun b => rfl)
                        hno hwf hbkmem hbkid (conflicts_excl_empty s bk.resource_id
                          bid bk.scheduled_start t2 hempty)
              · rw [if_neg hempty]; exact ⟨hno, hwf⟩
        | valid t1 =>
          cases se with
          | invalid => exact ⟨hno, hwf⟩
          | empty =>
            simp only [parseDT, Option.getD_none, Option.getD_some, Option.isSome_none,
              Option.isSome_some, Bool.or_false, Bool.false_or, Bool.true_or,
              Bool.or_true, eq_self_iff_true, if_true, true_and]
            by_cases hord : bk.scheduled_end ≤ t1
            · rw [if_pos hord]; exact ⟨hno, hwf⟩
            · rw [if_neg hord]
              by_cases hempty : (bookingConflicts s bk.resource_id (some bid) t1
                  bk.scheduled_end).isEmpty = true
              · rw [if_pos hempty]
                by_cases hkneg : negIntOpt ak = true
                · rw [if_pos hkneg]; exact ⟨hno, hwf⟩
                · rw [if_neg hkneg]
                  by_cases hgneg : negIntOpt ag = true
                  · rw [if_pos hgneg]; exact ⟨hno, hwf⟩
                  · rw [if_neg hgneg]
                    split
                    · exact no_overlap_map_sched s bid bk t1 bk.scheduled_end _
                        (fun b => rfl) (fun b => rfl) (fun b => rfl) (fun b => rfl)
                        hno hwf hbkmem hbkid (conflicts_excl_empty s bk.resource_id
                          bid t1 bk.scheduled_end hempty)
                    · exact no_overlap_map_sched s bid bk t1 bk.scheduled_end _
                        (fun b => rfl) (fun b => rfl) (fun b => rfl) (fun b => rfl)
                        hno hwf hbkmem hbkid (conflicts_excl_empty s bk.resource_id
                          bid t1 bk.scheduled_end hempty)
              · rw [if_neg hempty]; exact ⟨hno, hwf⟩
          | valid t2 =>
            simp only [parseDT, Option.getD_some, Option.isSome_some, Bool.or_self,
              Bool.true_or, Bool.or_true, eq_self_iff_true, if_true, true_and]
            by_cases hord : t2 ≤ t1
            · rw [if_pos hord]; exact ⟨hno, hwf⟩
            · rw [if_neg hord]
              by_cases hempty : (bookingConflicts s bk.resource_id (some bid) t1
                  t2).isEmpty = true
              · rw [if_pos hempty]
                by_cases hkneg : negIntOpt ak = true
                · rw [if_pos hkneg]; exact ⟨hno, hwf⟩
                · rw [if_neg hkneg]
                  by_cases hgneg : negIntOpt ag = true
                  · rw [if_pos hgneg]; exact ⟨hno, hwf⟩
                  · rw [if_neg hgneg]
                    split
                    · exact no_overlap_map_sched s bid bk t1 t2 _
                        (fun b => rfl) (fun b => rfl) (fun b => rfl) (fun b => rfl)
                        hno hwf hbkmem hbkid (conflicts_excl_empty s bk.resource_id
                          bid t1 t2 hempty)
                    · exact no_overlap_map_sched s bid bk t1 t2 _
                        (fun b => rfl) (fun b => rfl) (fun b => rfl) (fun b => rfl)
                        hno hwf hbkmem hbkid (conflicts_excl_empty s bk.resource_id
                          bid t1 t2 hempty)
              · rw [if_neg hempty]; exact ⟨hno, hwf⟩

def cexS1 : State :=
  (create_party_booking envOk sampleState 1 1 5 (DTStr.valid 10) (DTStr.valid 30)
    0 0 "" "Cancelled").2

def cexS2 : State :=
  (create_party_booking envOk cexS1 1 1 5 (DTStr.valid 20) (DTStr.valid 40)
    0 0 "" "Confirmed").2

def cexS3 : State :=
  (update_party_booking envOk cexS2 1 "Confirmed" DTStr.empty DTStr.empty
    none none none "").2

/-- C1 counterexample: create a Cancelled booking on room 5 for [10,30), then
a Confirmed one for the overlapping [20,40) (allowed, since the Cancelled row
is not active), then flip the first booking back to Confirmed through a
status-only update — which runs no conflict check. The resulting state is
reachable yet holds two overlapping Confirmed bookings on the same resource,
refuting the claimed invariant. -/
theorem no_overlap_invariant_violated :
    ReachableB envOk cexS3 ∧ ¬ NoOverlapInv cexS3 := by
  constructor
  · have h0 : ReachableB envOk sampleState := ReachableB.init [{ customer_id := 1 }]
    have h1 : ReachableB envOk cexS1 :=
      ReachableB.create sampleState 1 1 5 (DTStr.valid 10) (DTStr.valid 30)
        0 0 "" "Cancelled" h0
    have h2 : ReachableB envOk cexS2 :=
      ReachableB.create cexS1 1 1 5 (DTStr.valid 20) (DTStr.valid 40)
        0 0 "" "Confirmed" h1
    exact ReachableB.update cexS2 1 "Confirmed" DTStr.empty DTStr.empty
      none none none "" h2
  · decide

/-- C1 amended: the no-overlap invariant is preserved by every
create_party_booking call, and by every update_party_booking call that
supplies a new start or end (which re-runs the conflict query) or that does
not supply a status; a status-only update performs no conflict check and can
reactivate a Cancelled booking whose window overlaps an active one, so the
invariant does not hold in all reachable states. -/
theorem no_overlap_preserved_amended :
    (∀ (env : Env) (s : State) (cid pid rid : Int) (ss se : DTStr) (ak ag : Int)
        (sr st : String),
      NoOverlapInv s → BookingIdsWF s →
      NoOverlapInv (create_party_booking env s cid pid rid ss se ak ag sr st).2
      ∧ BookingIdsWF (create_party_booking env s cid pid rid ss se ak ag sr st).2)
    ∧ (∀ (env : Env) (s : State) (bid : Int) (st : String) (ss se : DTStr)
        (ak ag : Option Int) (sr : Option String) (rr : String),
      ss ≠ DTStr.empty ∨ se ≠ DTStr.empty ∨ st = "" →
      NoOverlapInv s → BookingIdsWF s →
      NoOverlapInv (update_party_booking env s bid st ss se ak ag sr rr).2
      ∧ BookingIdsWF (update_party_booking env s bid st ss se ak ag sr rr).2) :=
  ⟨fun env s cid pid rid ss se ak ag sr st hno hwf =>
    create_preserves_no_overlap env s cid pid rid ss se ak ag sr st hno hwf,
   fun env s bid st ss se ak ag sr rr hcase hno hwf =>
    update_preserves_no_overlap env s bid st ss se ak ag sr rr hcase hno hwf⟩

/-- Witness for C1 amended: a create and a schedule-changing update on a
concrete invariant-satisfying state keep the invariant. -/
theorem no_overlap_preserved_amended_witness :
    NoOverlapInv (create_party_booking envOk bookingState 1 1 5 (DTStr.valid 100)
      (DTStr.valid 200) 0 0 "" "Confirmed").2
    ∧ NoOverlapInv (update_party_booking envOk bookingState 1 "" (DTStr.valid 40)
      (DTStr.valid 60) none none none "").2 :=
  ⟨(no_overlap_preserved_amended.1 envOk bookingState 1 1 5 (DTStr.valid 100)
      (DTStr.valid 200) 0 0 "" "Confirmed" (by decide) (by decide)).1,
   (no_overlap_preserved_amended.2 envOk bookingState 1 "" (DTStr.valid 40)
      (DTStr.valid 60) none none none "" (Or.inl (by decide)) (by decide)
      (by decide)).1⟩

end Playfunia
